import Mathlib

/-!
Shallow embedding of `src/cizzle-car-world-html/main.js` (a small driving toy:
keyboard/gamepad input resolution, per-frame vehicle kinematics with boundary
clamping, random obstacle generation, and a chase camera).

Conventions of the embedding:
* JavaScript numbers appearing in the input-resolution and obstacle code are
  modelled as rationals (`ℚ`), so every branch condition is decidable and the
  definitions are executable.
* The vehicle pose and the camera position are modelled over `ℝ`, because the
  kinematics multiply by `Math.PI` and translate along the rotated local axis
  (`Real.sin` / `Real.cos`).  Since the car is only ever rotated about the
  vertical axis, its orientation quaternion is exactly a yaw angle, yaw
  rotations compose additively, and `translateZ d` adds
  `d * (sin yaw, 0, cos yaw)` to the world position.
* The render loop's ambient state (active gamepad index, latched keys, tracked
  axis values) is passed explicitly to the functions that read or write it.
-/

namespace CizzleCarWorld

/-- main.js line 7: `const worldSize = 100`. -/
def worldSize : ℚ := 100

/-- main.js line 8: `const boundary = worldSize / 2 - 2`. -/
def boundary : ℚ := worldSize / 2 - 2

/-- main.js line 17: `const carSpeed = 10` (units per second). -/
def carSpeed : ℚ := 10

/-- main.js line 26: `const deadZone = 0.15` (written as the fraction 15/100
so the kernel can evaluate comparisons against it). -/
def deadZone : ℚ := 15 / 100

/-- main.js line 18: `const turnSpeed = Math.PI` (radians per second). -/
noncomputable def turnSpeed : ℝ := Real.pi

/-- main.js lines 11-16: the four latched key flags `keys.w/a/s/d`. -/
structure Keys where
  w : Bool
  a : Bool
  s : Bool
  d : Bool
deriving DecidableEq

/-- main.js lines 22-25: `gamepadState` with four tracked axis values and a
button array. -/
structure GamepadState where
  axes0 : ℚ
  axes1 : ℚ
  axes2 : ℚ
  axes3 : ℚ
  buttons : List Bool
deriving DecidableEq

/-- main.js lines 243-246: the dead-zone snap applied to each polled axis
value (`if (Math.abs(value) < deadZone) value = 0`). -/
def applyDeadZone (value : ℚ) : ℚ :=
  if |value| < deadZone then 0 else value

/-- main.js line 242-249: one step of the polling loop.  Axis slot `i` is
overwritten with the dead-zone-snapped raw value when the polled axis array
has an entry at `i`, and kept otherwise (the loop runs up to
`min(gp.axes.length, gamepadState.axes.length)`). -/
def pollAxis (rawAxes : List ℚ) (i : ℕ) (old : ℚ) : ℚ :=
  match rawAxes.get? i with
  | some v => applyDeadZone v
  | none => old

/-- main.js lines 229-255, `updateGamepadInput`.  `getGamepads` models
`navigator.getGamepads()` as a partial map from device index to its polled
axis array; `none` means the device is absent.  Returns the new
`gamepadIndex` and the new `gamepadState`.  Note that when the active device
is absent (`!gp`), only the index is cleared; the tracked axes are NOT
reset. -/
def updateGamepadInput (gamepadIndex : Option ℕ) (getGamepads : ℕ → Option (List ℚ))
    (st : GamepadState) : Option ℕ × GamepadState :=
  match gamepadIndex with
  | none => (none, st)
  | some idx =>
    match getGamepads idx with
    | none => (none, st)
    | some rawAxes =>
      (some idx,
        { st with
          axes0 := pollAxis rawAxes 0 st.axes0
          axes1 := pollAxis rawAxes 1 st.axes1
          axes2 := pollAxis rawAxes 2 st.axes2
          axes3 := pollAxis rawAxes 3 st.axes3 })

/-- main.js lines 193-201, `handleGamepadDisconnected`: when the event's
device index equals the active index, clear the reference, zero the axes and
clear the buttons (`gamepadState.buttons.fill(false)`). -/
def handleGamepadDisconnected (eventIndex : ℕ) (gamepadIndex : Option ℕ)
    (st : GamepadState) : Option ℕ × GamepadState :=
  if gamepadIndex = some eventIndex then
    (none,
      { axes0 := 0, axes1 := 0, axes2 := 0, axes3 := 0
        buttons := st.buttons.map fun _ => false })
  else (gamepadIndex, st)

/-- main.js lines 263-268: the digital forward input accumulated from the
latched keys (`if (keys.w) forwardInput -= 1; if (keys.s) forwardInput += 0.6`). -/
def keyboardForward (k : Keys) : ℚ :=
  (if k.w then -1 else 0) + (if k.s then 3 / 5 else 0)

/-- main.js lines 264-270: the digital turn input accumulated from the
latched keys (`if (keys.a) turnInput += 1; if (keys.d) turnInput -= 1`). -/
def keyboardTurn (k : Keys) : ℚ :=
  (if k.a then 1 else 0) + (if k.d then -1 else 0)

/-- main.js lines 262-283: input resolution inside `updateCar`.  The digital
values are accumulated from the keys, then each gamepad axis replaces its own
axis when its magnitude exceeds the dead zone: with `gpForward = -axes[1]`,
`forwardInput` becomes `gpForward > 0 ? -gpForward : gpForward * 0.6`, and
with `gpTurn = axes[0]`, `turnInput` becomes `-gpTurn`.  (The source's `0.6`
is the fraction 3/5.)  Returns `(forwardInput, turnInput)`. -/
def resolveInputs (k : Keys) (st : GamepadState) : ℚ × ℚ :=
  ((if deadZone < |(-st.axes1)| then
      if 0 < -st.axes1 then -(-st.axes1) else -st.axes1 * (3 / 5)
    else keyboardForward k),
   (if deadZone < |st.axes0| then -st.axes0 else keyboardTurn k))

/-- The vehicle pose: world position and yaw (the car is only ever rotated
about the vertical axis, so its quaternion is a yaw angle). -/
structure CarState where
  x : ℝ
  y : ℝ
  z : ℝ
  yaw : ℝ

/-- main.js lines 259-294 (`updateCar` before the boundary checks): rotate by
`turnSpeed * deltaTime * turnInput` about the local vertical axis when the
turn input is nonzero, then `translateZ(carSpeed * deltaTime * forwardInput)`
along the (already rotated) local forward axis when the forward input is
nonzero.  `translateZ d` adds `d * (sin yaw, 0, cos yaw)` in world space. -/
noncomputable def updateCarPose (deltaTime : ℝ) (forwardInput turnInput : ℚ)
    (c : CarState) : CarState :=
  let currentTurnSpeed := turnSpeed * deltaTime
  let currentMoveSpeed := (carSpeed : ℝ) * deltaTime
  let yaw1 := if turnInput = 0 then c.yaw else c.yaw + currentTurnSpeed * turnInput
  let x1 := if forwardInput = 0 then c.x
    else c.x + currentMoveSpeed * forwardInput * Real.sin yaw1
  let z1 := if forwardInput = 0 then c.z
    else c.z + currentMoveSpeed * forwardInput * Real.cos yaw1
  { x := x1, y := c.y, z := z1, yaw := yaw1 }

/-- THREE.MathUtils.clamp: `Math.max(min, Math.min(max, value))`. -/
noncomputable def clamp (value lo hi : ℝ) : ℝ :=
  max lo (min hi value)

/-- main.js lines 296-301: the boundary checks of `updateCar` — clamp `x` and
`z` to `[-boundary, boundary]` and force `y = 0.5`. -/
noncomputable def clampCar (c : CarState) : CarState :=
  { x := clamp c.x (-(boundary : ℝ)) (boundary : ℝ)
    y := 0.5
    z := clamp c.z (-(boundary : ℝ)) (boundary : ℝ)
    yaw := c.yaw }

/-- main.js lines 258-302, the whole of `updateCar`: resolve the inputs, apply
rotation then translation, then the boundary checks. -/
noncomputable def updateCar (deltaTime : ℝ) (k : Keys) (st : GamepadState)
    (c : CarState) : CarState :=
  let inputs := resolveInputs k st
  clampCar (updateCarPose deltaTime inputs.1 inputs.2 c)

/-- THREE.MathUtils.randFloatSpread: `range * (0.5 - Math.random())`, where
`r` stands for the `Math.random()` draw. -/
def randFloatSpread (range r : ℚ) : ℚ :=
  range * (1 / 2 - r)

/-- THREE.MathUtils.randFloat: `low + Math.random() * (high - low)`, where `r`
stands for the `Math.random()` draw. -/
def randFloat (low high r : ℚ) : ℚ :=
  low + r * (high - low)

/-- One generated obstacle: its final world position and uniform scale
factor. -/
structure Obstacle where
  x : ℚ
  y : ℚ
  z : ℚ
  scale : ℚ
deriving DecidableEq

/-- main.js lines 116-125: the rejection-sampling `while (!placed)` loop of
`createObstacles`.  `rs` is the stream of `Math.random()` draws and `n` the
index of the next unconsumed draw; each attempt consumes two draws for `x`
and `z` and accepts when `Math.abs(x) > 5 || Math.abs(z) > 5`.  The source
loop is unbounded, so the embedding adds explicit fuel and returns `none`
when the fuel is exhausted; on acceptance it returns the accepted pair and
the next unconsumed draw index. -/
def placeLoop (rs : ℕ → ℚ) : ℕ → ℕ → Option ((ℚ × ℚ) × ℕ)
  | 0, _ => none
  | fuel + 1, n =>
    let x := randFloatSpread (worldSize * (9 / 10)) (rs n)
    let z := randFloatSpread (worldSize * (9 / 10)) (rs (n + 1))
    if 5 < |x| ∨ 5 < |z| then some ((x, z), n + 2) else placeLoop rs fuel (n + 2)

/-- main.js lines 108-137, `createObstacles`, recursing over the remaining
count: place one obstacle by rejection sampling (position set to
`(x, 0.5, z)`), draw its scale with `randFloat(1, 4)`, then override the
vertical coordinate with `scale / 2`. -/
def createObstaclesAux (rs : ℕ → ℚ) (fuel : ℕ) : ℕ → ℕ → Option (List Obstacle)
  | 0, _ => some []
  | count + 1, n =>
    match placeLoop rs fuel n with
    | none => none
    | some ((x, z), n1) =>
      let scale := randFloat 1 4 (rs n1)
      match createObstaclesAux rs fuel count (n1 + 1) with
      | none => none
      | some rest => some ({ x := x, y := scale / 2, z := z, scale := scale } :: rest)

/-- main.js line 108: `createObstacles(count)`, starting from the beginning of
the random stream. -/
def createObstacles (rs : ℕ → ℚ) (fuel count : ℕ) : Option (List Obstacle) :=
  createObstaclesAux rs fuel count 0

/-- A world-space point (used for the camera position). -/
@[ext]
structure Vec3 where
  x : ℝ
  y : ℝ
  z : ℝ

/-- THREE.Vector3.lerp, one component: `this.x += (v.x - this.x) * alpha`. -/
def lerp (a b alpha : ℝ) : ℝ :=
  a + (b - a) * alpha

/-- main.js lines 316-322: the desired camera position — the car's world
position plus the base offset `(0, 5, 12)` rotated by the car's quaternion.
A yaw rotation sends `(0, 5, 12)` to `(12 sin yaw, 5, 12 cos yaw)`. -/
noncomputable def desiredCameraPosition (c : CarState) : Vec3 :=
  { x := c.x + 12 * Real.sin c.yaw
    y := c.y + 5
    z := c.z + 12 * Real.cos c.yaw }

/-- main.js line 325: `camera.position.lerp(desiredCameraPosition, 0.05)` —
the positional part of `updateCamera` (the subsequent `lookAt` only changes
the camera's orientation). -/
noncomputable def updateCameraPosition (c : CarState) (p : Vec3) : Vec3 :=
  let d := desiredCameraPosition c
  { x := lerp p.x d.x 0.05
    y := lerp p.y d.y 0.05
    z := lerp p.z d.z 0.05 }

/-- A polled-device map with no devices present (models
`navigator.getGamepads()` returning nothing at every index). -/
def noGamepads : ℕ → Option (List ℚ) := fun _ => none

/-- A random stream whose every draw is 1 (the supremum of the
`Math.random()` range). -/
def constOneStream : ℕ → ℚ := fun _ => 1

/-- Claim C3: digital input resolution is additive per axis over the four
latched key flags — forward key contributes -1 to the forward input, back key
+0.6 (the fraction 3/5), left key +1 to the turn input, right key -1; with a
neutral gamepad the resolved inputs are exactly these sums, so forward alone
gives -1, back alone gives +0.6 = 3/5, and forward together with back gives
-0.4 = -(2/5). -/
theorem resolveInputs_keyboard_additive (k : Keys) :
    resolveInputs k ⟨0, 0, 0, 0, []⟩ =
      ((if k.w then -1 else 0) + (if k.s then 3 / 5 else 0),
       (if k.a then 1 else 0) + (if k.d then -1 else 0)) ∧
    (resolveInputs ⟨true, false, false, false⟩ ⟨0, 0, 0, 0, []⟩).1 = -1 ∧
    (resolveInputs ⟨false, false, true, false⟩ ⟨0, 0, 0, 0, []⟩).1 = 3 / 5 ∧
    (resolveInputs ⟨true, false, true, false⟩ ⟨0, 0, 0, 0, []⟩).1 = -(2 / 5) ∧
    (resolveInputs ⟨false, true, false, false⟩ ⟨0, 0, 0, 0, []⟩).2 = 1 ∧
    (resolveInputs ⟨false, false, false, true⟩ ⟨0, 0, 0, 0, []⟩).2 = -1 := by
  refine ⟨?_, by with_unfolding_all decide, by with_unfolding_all decide, by with_unfolding_all decide, by with_unfolding_all decide, by with_unfolding_all decide⟩
  obtain ⟨w, a, s, d⟩ := k
  revert w a s d
  with_unfolding_all decide

/-- Claim C4: whenever the magnitude of the gamepad turn axis (axis 0)
exceeds the dead zone, the resolved turn input equals the negated axis value,
replacing any keyboard-derived turn value. -/
theorem resolveInputs_gamepad_turn_overrides (k : Keys) (st : GamepadState)
    (h : deadZone < |st.axes0|) :
    (resolveInputs k st).2 = -st.axes0 := by
  show (if deadZone < |st.axes0| then -st.axes0 else keyboardTurn k) = -st.axes0
  rw [if_pos h]

/-- Witness for C4: with a turn-axis reading of 0.5 and the left key pressed,
the resolved turn input is -0.5 (the gamepad value), not +1 (the keyboard
value). -/
theorem resolveInputs_gamepad_turn_overrides_witness :
    (resolveInputs ⟨false, true, false, false⟩ ⟨1/2, 0, 0, 0, []⟩).2 = -(1/2 : ℚ) := by
  have h := resolveInputs_gamepad_turn_overrides ⟨false, true, false, false⟩
    ⟨1/2, 0, 0, 0, []⟩ (by with_unfolding_all decide)
  simpa using h

/-- Claim C5: whenever the magnitude of the sign-inverted gamepad forward
axis (axis 1) exceeds the dead zone, the resolved forward input replaces the
digital value: for a positive inverted value v it is -v, and for a negative
one it is v * 0.6 (the fraction 3/5). -/
theorem resolveInputs_gamepad_forward_overrides (k : Keys) (st : GamepadState)
    (h : deadZone < |(-st.axes1)|) :
    (0 < -st.axes1 → (resolveInputs k st).1 = -(-st.axes1)) ∧
    (-st.axes1 < 0 → (resolveInputs k st).1 = -st.axes1 * (3 / 5)) := by
  constructor
  · intro hv
    show (if deadZone < |(-st.axes1)| then
        if 0 < -st.axes1 then -(-st.axes1) else -st.axes1 * (3 / 5)
      else keyboardForward k) = -(-st.axes1)
    rw [if_pos h, if_pos hv]
  · intro hv
    show (if deadZone < |(-st.axes1)| then
        if 0 < -st.axes1 then -(-st.axes1) else -st.axes1 * (3 / 5)
      else keyboardForward k) = -st.axes1 * (3 / 5)
    rw [if_pos h, if_neg (not_lt.mpr hv.le)]

/-- Witness for C5: an axis-1 reading of -0.5 inverts to +0.5, which exceeds
the dead zone, so the forward input is -0.5 even with the back key held. -/
theorem resolveInputs_gamepad_forward_overrides_witness :
    (resolveInputs ⟨false, false, true, false⟩ ⟨0, -(1/2), 0, 0, []⟩).1 = -(1/2 : ℚ) := by
  have h := (resolveInputs_gamepad_forward_overrides ⟨false, false, true, false⟩
    ⟨0, -(1/2), 0, 0, []⟩ (by with_unfolding_all decide)).1 (by with_unfolding_all decide)
  simpa using h

/-- Claim C6: a polled axis value below the dead zone is snapped to zero on
storage, a zero stored axis contributes nothing to the resolved input, and
the keyboard-derived value decides that axis instead. -/
theorem deadZone_snap_keyboard_fallback (v : ℚ) (h : |v| < deadZone) :
    applyDeadZone v = 0 ∧
    (∀ (idx : ℕ) (st : GamepadState) (rest : List ℚ),
      (updateGamepadInput (some idx) (fun _ => some (v :: rest)) st).2.axes0 = 0) ∧
    (∀ (k : Keys) (st : GamepadState), st.axes0 = applyDeadZone v →
      (resolveInputs k st).2 = keyboardTurn k) ∧
    (∀ (k : Keys) (st : GamepadState), st.axes1 = applyDeadZone v →
      (resolveInputs k st).1 = keyboardForward k) := by
  have hz : applyDeadZone v = 0 := by
    unfold applyDeadZone
    rw [if_pos h]
  refine ⟨hz, ?_, ?_, ?_⟩
  · intro idx st rest
    simp [updateGamepadInput, pollAxis, hz]
  · intro k st hst
    rw [hz] at hst
    show (if deadZone < |st.axes0| then -st.axes0 else keyboardTurn k) = keyboardTurn k
    rw [hst, if_neg (by with_unfolding_all decide)]
  · intro k st hst
    rw [hz] at hst
    show (if deadZone < |(-st.axes1)| then
        if 0 < -st.axes1 then -(-st.axes1) else -st.axes1 * (3 / 5)
      else keyboardForward k) = keyboardForward k
    rw [hst, if_neg (by with_unfolding_all decide)]

/-- Witness for C6: an axis reading of 0.10 snaps to zero in the polling
path, and with that axis at zero the left-key turn value +1 is what the
resolution returns. -/
theorem deadZone_snap_keyboard_fallback_witness :
    applyDeadZone (1/10) = 0 ∧
    (updateGamepadInput (some 0) (fun _ => some [1/10]) ⟨1, 1, 0, 0, []⟩).2.axes0 = 0 ∧
    (resolveInputs ⟨false, true, false, false⟩ ⟨0, 0, 0, 0, []⟩).2 =
      keyboardTurn ⟨false, true, false, false⟩ := by
  obtain ⟨h1, h2, h3, _⟩ := deadZone_snap_keyboard_fallback (1/10) (by with_unfolding_all decide)
  exact ⟨h1, h2 0 ⟨1, 1, 0, 0, []⟩ [], h3 ⟨false, true, false, false⟩
    ⟨0, 0, 0, 0, []⟩ (by rw [h1])⟩

/-- Claim C10: an axis reading whose magnitude equals the dead-zone threshold
exactly is stored unchanged (the polling snap uses a strict less-than), yet
does not override the keyboard (the override test uses a strict
greater-than), so the keyboard-derived input decides that axis. -/
theorem deadZone_boundary_strict (v : ℚ) (h : |v| = deadZone) :
    applyDeadZone v = v ∧
    (∀ (k : Keys) (st : GamepadState), st.axes0 = v →
      (resolveInputs k st).2 = keyboardTurn k) ∧
    (∀ (k : Keys) (st : GamepadState), st.axes1 = v →
      (resolveInputs k st).1 = keyboardForward k) := by
  have hns : ¬(|v| < deadZone) := by rw [h]; exact lt_irrefl _
  have hno : ¬(deadZone < |v|) := by rw [h]; exact lt_irrefl _
  refine ⟨?_, ?_, ?_⟩
  · unfold applyDeadZone
    rw [if_neg hns]
  · intro k st hst
    show (if deadZone < |st.axes0| then -st.axes0 else keyboardTurn k) = keyboardTurn k
    rw [hst, if_neg hno]
  · intro k st hst
    have hno1 : ¬(deadZone < |(-v)|) := by rwa [abs_neg]
    show (if deadZone < |(-st.axes1)| then
        if 0 < -st.axes1 then -(-st.axes1) else -st.axes1 * (3 / 5)
      else keyboardForward k) = keyboardForward k
    rw [hst, if_neg hno1]

/-- Witness for C10: a stored reading of exactly 0.15 survives the snap yet
leaves the left-key turn value +1 in effect. -/
theorem deadZone_boundary_strict_witness :
    applyDeadZone (15/100) = 15/100 ∧
    (resolveInputs ⟨false, true, false, false⟩ ⟨15/100, 0, 0, 0, []⟩).2 =
      keyboardTurn ⟨false, true, false, false⟩ := by
  obtain ⟨h1, h2, _⟩ := deadZone_boundary_strict (15/100) (by with_unfolding_all decide)
  exact ⟨h1, h2 ⟨false, true, false, false⟩ ⟨15/100, 0, 0, 0, []⟩ rfl⟩

/-- Counterexample to claim C7: on an implicit disconnect (the active device
absent from the polled list) the tracked axis state is NOT reset — a stale
axis-0 value of 0.5 survives, and since `updateCar` reads the tracked axes
unconditionally, the stale value (exceeding the dead zone) still overrides
the keyboard on subsequent frames: with the left key held the resolved turn
input is -0.5, not the keyboard value +1. -/
theorem implicit_disconnect_keeps_stale_axes :
    (updateGamepadInput (some 0) noGamepads ⟨1/2, 0, 0, 0, []⟩).1 = none ∧
    (updateGamepadInput (some 0) noGamepads ⟨1/2, 0, 0, 0, []⟩).2.axes0 = 1/2 ∧
    ¬((updateGamepadInput (some 0) noGamepads ⟨1/2, 0, 0, 0, []⟩).2.axes0 = 0) ∧
    (resolveInputs ⟨false, true, false, false⟩
      (updateGamepadInput (some 0) noGamepads ⟨1/2, 0, 0, 0, []⟩).2).2 = -(1/2) ∧
    keyboardTurn ⟨false, true, false, false⟩ = 1 := by
  refine ⟨rfl, rfl, ?_, ?_, by with_unfolding_all decide⟩
  · show ¬((1 : ℚ)/2 = 0)
    with_unfolding_all decide
  · show (resolveInputs ⟨false, true, false, false⟩ ⟨1/2, 0, 0, 0, []⟩).2 = -(1/2)
    with_unfolding_all decide

/-- Claim C7 as amended: an explicit disconnect event for the active device
clears the reference, resets the tracked axes to zero and the buttons to
false, and input resolution then returns the keyboard values; an implicit
disconnect (device absent from the polled list) only clears the reference
and leaves the tracked axis state unchanged. -/
theorem gamepad_disconnect_behaviour (idx : ℕ) (gamepadIndex : Option ℕ)
    (st : GamepadState) (h : gamepadIndex = some idx) :
    (handleGamepadDisconnected idx gamepadIndex st).1 = none ∧
    (handleGamepadDisconnected idx gamepadIndex st).2.axes0 = 0 ∧
    (handleGamepadDisconnected idx gamepadIndex st).2.axes1 = 0 ∧
    (handleGamepadDisconnected idx gamepadIndex st).2.axes2 = 0 ∧
    (handleGamepadDisconnected idx gamepadIndex st).2.axes3 = 0 ∧
    (∀ b ∈ (handleGamepadDisconnected idx gamepadIndex st).2.buttons, b = false) ∧
    (∀ k, resolveInputs k (handleGamepadDisconnected idx gamepadIndex st).2 =
      (keyboardForward k, keyboardTurn k)) ∧
    (∀ getGamepads : ℕ → Option (List ℚ), getGamepads idx = none →
      (updateGamepadInput gamepadIndex getGamepads st).1 = none ∧
      (updateGamepadInput gamepadIndex getGamepads st).2 = st) := by
  subst h
  have hd : handleGamepadDisconnected idx (some idx) st =
      (none, { axes0 := 0, axes1 := 0, axes2 := 0, axes3 := 0
               buttons := st.buttons.map fun _ => false }) := by
    unfold handleGamepadDisconnected
    rw [if_pos rfl]
  rw [hd]
  refine ⟨rfl, rfl, rfl, rfl, rfl, ?_, ?_, ?_⟩
  · intro b hb
    rw [List.mem_map] at hb
    obtain ⟨x, -, rfl⟩ := hb
    rfl
  · intro k
    show ((if deadZone < |(-(0 : ℚ))| then _ else keyboardForward k),
      (if deadZone < |(0 : ℚ)| then _ else keyboardTurn k)) = _
    rw [if_neg (by with_unfolding_all decide), if_neg (by with_unfolding_all decide)]
  · intro getGamepads hg
    have hu : updateGamepadInput (some idx) getGamepads st = (none, st) := by
      show (match getGamepads idx with
        | none => ((none : Option ℕ), st)
        | some rawAxes =>
          (some idx,
            { st with
              axes0 := pollAxis rawAxes 0 st.axes0
              axes1 := pollAxis rawAxes 1 st.axes1
              axes2 := pollAxis rawAxes 2 st.axes2
              axes3 := pollAxis rawAxes 3 st.axes3 })) = ((none : Option ℕ), st)
      rw [hg]
    rw [hu]
    exact ⟨rfl, rfl⟩

/-- Witness for the amended C7: disconnecting device 0 while it is active
clears the reference and zeroes a previously nonzero axis. -/
theorem gamepad_disconnect_behaviour_witness :
    (handleGamepadDisconnected 0 (some 0) ⟨1/2, 0, 0, 0, [true]⟩).1 = none ∧
    (handleGamepadDisconnected 0 (some 0) ⟨1/2, 0, 0, 0, [true]⟩).2.axes0 = 0 := by
  have h := gamepad_disconnect_behaviour 0 (some 0) ⟨1/2, 0, 0, 0, [true]⟩ rfl
  exact ⟨h.1, h.2.1⟩

/-- Both clamp bounds hold whenever the interval is nonempty. -/
theorem clamp_mem (value lo hi : ℝ) (h : lo ≤ hi) :
    lo ≤ clamp value lo hi ∧ clamp value lo hi ≤ hi :=
  ⟨le_max_left _ _, max_le h (min_le_left _ _)⟩

/-- Claim C1: for every prior pose, every nonnegative elapsed time and every
input combination, the updated horizontal coordinates lie within
`[-(worldSize/2 - 2), worldSize/2 - 2]` and the vertical coordinate equals
the fixed ground offset 0.5. -/
theorem updateCar_stays_in_bounds (deltaTime : ℝ) (k : Keys) (st : GamepadState)
    (c : CarState) (h : 0 ≤ deltaTime) :
    -((worldSize : ℝ) / 2 - 2) ≤ (updateCar deltaTime k st c).x ∧
    (updateCar deltaTime k st c).x ≤ (worldSize : ℝ) / 2 - 2 ∧
    -((worldSize : ℝ) / 2 - 2) ≤ (updateCar deltaTime k st c).z ∧
    (updateCar deltaTime k st c).z ≤ (worldSize : ℝ) / 2 - 2 ∧
    (updateCar deltaTime k st c).y = 0.5 := by
  have hbws : ((boundary : ℚ) : ℝ) = (worldSize : ℝ) / 2 - 2 := by
    norm_num [boundary, worldSize]
  have hle : -((boundary : ℚ) : ℝ) ≤ ((boundary : ℚ) : ℝ) := by
    rw [hbws]
    norm_num [worldSize]
  obtain ⟨hx1, hx2⟩ := clamp_mem (updateCarPose deltaTime (resolveInputs k st).1
    (resolveInputs k st).2 c).x (-((boundary : ℚ) : ℝ)) ((boundary : ℚ) : ℝ) hle
  obtain ⟨hz1, hz2⟩ := clamp_mem (updateCarPose deltaTime (resolveInputs k st).1
    (resolveInputs k st).2 c).z (-((boundary : ℚ) : ℝ)) ((boundary : ℚ) : ℝ) hle
  refine ⟨?_, ?_, ?_, ?_, rfl⟩
  · rw [← hbws]; exact hx1
  · rw [← hbws]; exact hx2
  · rw [← hbws]; exact hz1
  · rw [← hbws]; exact hz2

/-- Witness for C1: a concrete update (elapsed time 1, no inputs, car at the
origin) satisfies the hypotheses and lands on the ground offset. -/
theorem updateCar_stays_in_bounds_witness :
    (0 : ℝ) ≤ 1 ∧
    (updateCar 1 ⟨false, false, false, false⟩ ⟨0, 0, 0, 0, []⟩ ⟨0, 0.5, 0, 0⟩).y = 0.5 :=
  ⟨zero_le_one, (updateCar_stays_in_bounds 1 ⟨false, false, false, false⟩
    ⟨0, 0, 0, 0, []⟩ ⟨0, 0.5, 0, 0⟩ zero_le_one).2.2.2.2⟩

/-- The yaw after a pose update, in closed form: the branch guard of the
source collapses because a zero turn input also advances the yaw by zero. -/
theorem updateCarPose_yaw (deltaTime : ℝ) (forwardInput turnInput : ℚ)
    (c : CarState) :
    (updateCarPose deltaTime forwardInput turnInput c).yaw =
      c.yaw + Real.pi * deltaTime * turnInput := by
  show (if turnInput = 0 then c.yaw else c.yaw + turnSpeed * deltaTime * turnInput) = _
  by_cases ht : turnInput = 0
  · rw [if_pos ht, ht]
    push_cast
    ring
  · rw [if_neg ht]
    unfold turnSpeed
    ring

/-- The x coordinate after a pose update: translation along the rotated local
forward axis, using the new yaw. -/
theorem updateCarPose_x (deltaTime : ℝ) (forwardInput turnInput : ℚ)
    (c : CarState) :
    (updateCarPose deltaTime forwardInput turnInput c).x =
      c.x + 10 * deltaTime * forwardInput *
        Real.sin ((updateCarPose deltaTime forwardInput turnInput c).yaw) := by
  show (if forwardInput = 0 then c.x
      else c.x + (carSpeed : ℝ) * deltaTime * forwardInput *
        Real.sin ((updateCarPose deltaTime forwardInput turnInput c).yaw)) = _
  by_cases hf : forwardInput = 0
  · rw [if_pos hf, hf]
    push_cast
    ring
  · rw [if_neg hf]
    have hc : ((carSpeed : ℚ) : ℝ) = 10 := by norm_num [carSpeed]
    rw [hc]

/-- The z coordinate after a pose update: translation along the rotated local
forward axis, using the new yaw. -/
theorem updateCarPose_z (deltaTime : ℝ) (forwardInput turnInput : ℚ)
    (c : CarState) :
    (updateCarPose deltaTime forwardInput turnInput c).z =
      c.z + 10 * deltaTime * forwardInput *
        Real.cos ((updateCarPose deltaTime forwardInput turnInput c).yaw) := by
  show (if forwardInput = 0 then c.z
      else c.z + (carSpeed : ℝ) * deltaTime * forwardInput *
        Real.cos ((updateCarPose deltaTime forwardInput turnInput c).yaw)) = _
  by_cases hf : forwardInput = 0
  · rw [if_pos hf, hf]
    push_cast
    ring
  · rw [if_neg hf]
    have hc : ((carSpeed : ℚ) : ℝ) = 10 := by norm_num [carSpeed]
    rw [hc]

/-- Claim C2: one kinematics update with resolved inputs advances the yaw by
π × Δt × turnInput about the vertical axis, then translates the position by
10 × Δt × forwardInput along the local forward axis of the NEW orientation
(rotate-then-translate); with turn input +1 and Δt = 1 the yaw advances by
exactly π, and the yaw of the full update (clamping included) obeys the same
formula with the resolved turn input. -/
theorem updateCarPose_rotate_then_translate (deltaTime : ℝ)
    (forwardInput turnInput : ℚ) (k : Keys) (st : GamepadState) (c : CarState) :
    (updateCarPose deltaTime forwardInput turnInput c).yaw =
      c.yaw + Real.pi * deltaTime * turnInput ∧
    (updateCarPose deltaTime forwardInput turnInput c).x =
      c.x + 10 * deltaTime * forwardInput *
        Real.sin ((updateCarPose deltaTime forwardInput turnInput c).yaw) ∧
    (updateCarPose deltaTime forwardInput turnInput c).y = c.y ∧
    (updateCarPose deltaTime forwardInput turnInput c).z =
      c.z + 10 * deltaTime * forwardInput *
        Real.cos ((updateCarPose deltaTime forwardInput turnInput c).yaw) ∧
    (updateCarPose 1 forwardInput 1 c).yaw = c.yaw + Real.pi ∧
    (updateCar deltaTime k st c).yaw =
      c.yaw + Real.pi * deltaTime * (resolveInputs k st).2 := by
  refine ⟨updateCarPose_yaw _ _ _ _, updateCarPose_x _ _ _ _, rfl,
    updateCarPose_z _ _ _ _, ?_, ?_⟩
  · rw [updateCarPose_yaw]
    push_cast
    ring
  · show (updateCarPose deltaTime (resolveInputs k st).1 (resolveInputs k st).2 c).yaw = _
    exact updateCarPose_yaw _ _ _ _

/-- Linear interpolation of a point toward itself is the identity. -/
theorem lerp_self (a alpha : ℝ) : lerp a a alpha = a := by
  unfold lerp
  ring

/-- Claim C9: the desired camera position is a fixed point of the camera
update — if the camera already sits at the vehicle's world position plus the
offset (0, 5, 12) rotated by the vehicle's orientation, and the vehicle does
not move, one lerp step with factor 0.05 leaves the camera unchanged. -/
theorem updateCameraPosition_fixed_point (c : CarState) (p : Vec3)
    (h : p = desiredCameraPosition c) :
    updateCameraPosition c p = p := by
  subst h
  ext
  · show lerp (desiredCameraPosition c).x (desiredCameraPosition c).x 0.05 =
      (desiredCameraPosition c).x
    exact lerp_self _ _
  · show lerp (desiredCameraPosition c).y (desiredCameraPosition c).y 0.05 =
      (desiredCameraPosition c).y
    exact lerp_self _ _
  · show lerp (desiredCameraPosition c).z (desiredCameraPosition c).z 0.05 =
      (desiredCameraPosition c).z
    exact lerp_self _ _

/-- Witness for C9: for a car at the origin with yaw 0 the desired camera
position is (0, 5.5, 12), and the update fixes it. -/
theorem updateCameraPosition_fixed_point_witness :
    updateCameraPosition ⟨0, 0.5, 0, 0⟩ ⟨0, 5.5, 12⟩ = ⟨0, 5.5, 12⟩ := by
  refine updateCameraPosition_fixed_point _ _ ?_
  show _ = desiredCameraPosition ⟨0, 0.5, 0, 0⟩
  unfold desiredCameraPosition
  ext <;> norm_num [Real.sin_zero, Real.cos_zero]

/-- A spread draw from `[0,1]` lands within half the range on either side. -/
theorem randFloatSpread_bound (range r : ℚ) (hr : 0 ≤ range) (h0 : 0 ≤ r)
    (h1 : r ≤ 1) : |randFloatSpread range r| ≤ range / 2 := by
  unfold randFloatSpread
  rw [abs_mul, abs_of_nonneg hr]
  have habs : |1 / 2 - r| ≤ 1 / 2 := by
    rw [abs_le]
    constructor <;> linarith
  calc range * |1 / 2 - r| ≤ range * (1 / 2) := mul_le_mul_of_nonneg_left habs hr
    _ = range / 2 := by ring

/-- A uniform draw from `[0,1]` maps into `[low, high]`. -/
theorem randFloat_bound (low high r : ℚ) (h0 : 0 ≤ r) (h1 : r ≤ 1)
    (hlh : low ≤ high) :
    low ≤ randFloat low high r ∧ randFloat low high r ≤ high := by
  unfold randFloat
  constructor <;> nlinarith

/-- Any pair the rejection loop accepts passes the exclusion test and lies in
the 90 %-of-world square. -/
theorem placeLoop_spec (rs : ℕ → ℚ) (hr : ∀ n, 0 ≤ rs n ∧ rs n ≤ 1) :
    ∀ (fuel n : ℕ) (x z : ℚ) (n1 : ℕ), placeLoop rs fuel n = some ((x, z), n1) →
      (5 < |x| ∨ 5 < |z|) ∧ |x| ≤ 45 ∧ |z| ≤ 45 := by
  have hrange : (0 : ℚ) ≤ worldSize * (9 / 10) := by norm_num [worldSize]
  have h45 : (worldSize * (9 / 10) / 2 : ℚ) = 45 := by norm_num [worldSize]
  intro fuel
  induction fuel with
  | zero =>
    intro n x z n1 h
    exact absurd h (by simp [placeLoop])
  | succ fuel ih =>
    intro n x z n1 h
    simp only [placeLoop] at h
    split_ifs at h with hacc
    · simp only [Option.some.injEq, Prod.mk.injEq] at h
      obtain ⟨⟨hx, hz⟩, -⟩ := h
      subst hx
      subst hz
      refine ⟨hacc, ?_, ?_⟩
      · rw [← h45]
        exact randFloatSpread_bound _ _ hrange (hr n).1 (hr n).2
      · rw [← h45]
        exact randFloatSpread_bound _ _ hrange (hr (n + 1)).1 (hr (n + 1)).2
    · exact ih _ _ _ _ h

/-- Every obstacle list the generator returns has the requested length and
elementwise bounds. -/
theorem createObstaclesAux_spec (rs : ℕ → ℚ) (hr : ∀ n, 0 ≤ rs n ∧ rs n ≤ 1)
    (fuel : ℕ) :
    ∀ (count n : ℕ) (l : List Obstacle),
      createObstaclesAux rs fuel count n = some l →
      l.length = count ∧ ∀ o ∈ l,
        (5 < |o.x| ∨ 5 < |o.z|) ∧ |o.x| ≤ 45 ∧ |o.z| ≤ 45 ∧
        1 ≤ o.scale ∧ o.scale ≤ 4 ∧ o.y = o.scale / 2 := by
  intro count
  induction count with
  | zero =>
    intro n l h
    simp only [createObstaclesAux, Option.some.injEq] at h
    subst h
    simp
  | succ count ih =>
    intro n l h
    simp only [createObstaclesAux] at h
    split at h
    · exact absurd h (by simp)
    · rename_i x z n1 hp
      split at h
      · exact absurd h (by simp)
      · rename_i rest hrec
        simp only [Option.some.injEq] at h
        subst h
        obtain ⟨hlen, hmem⟩ := ih (n1 + 1) rest hrec
        obtain ⟨hacc, hxb, hzb⟩ := placeLoop_spec rs hr fuel n x z n1 hp
        refine ⟨by simp [hlen], ?_⟩
        intro o ho
        rcases List.mem_cons.mp ho with ho | ho
        · subst ho
          exact ⟨hacc, hxb, hzb,
            (randFloat_bound 1 4 (rs n1) (hr n1).1 (hr n1).2 (by norm_num)).1,
            (randFloat_bound 1 4 (rs n1) (hr n1).1 (hr n1).2 (by norm_num)).2, rfl⟩
        · exact hmem o ho

/-- Claim C8: whenever generation with count 30 returns (the source loop is
unbounded rejection sampling; the embedding's fuel makes the return
explicit) and the random draws lie in `[0,1]`, it yields exactly 30
obstacles, each accepted position has `|x| > 5` or `|z| > 5`, each horizontal
coordinate lies in the square spanning 90 % of the world extent centered at
the origin, and each obstacle's scale lies in `[1, 4]` with vertical
coordinate half its scale. -/
theorem createObstacles_spec (rs : ℕ → ℚ) (fuel : ℕ) (l : List Obstacle)
    (hr : ∀ n, 0 ≤ rs n ∧ rs n ≤ 1)
    (h : createObstacles rs fuel 30 = some l) :
    l.length = 30 ∧ ∀ o ∈ l,
      (5 < |o.x| ∨ 5 < |o.z|) ∧
      |o.x| ≤ worldSize * (9 / 10) / 2 ∧ |o.z| ≤ worldSize * (9 / 10) / 2 ∧
      1 ≤ o.scale ∧ o.scale ≤ 4 ∧ o.y = o.scale / 2 := by
  have h45 : (worldSize * (9 / 10) / 2 : ℚ) = 45 := by norm_num [worldSize]
  rw [h45]
  exact createObstaclesAux_spec rs hr fuel 30 0 l h

/-- Witness for C8: the constant stream of draws equal to 1 accepts every
first attempt at (-45, -45) with scale 4, so fuel 1 suffices and the
generator returns 30 identical obstacles. -/
theorem createObstacles_spec_witness :
    createObstacles constOneStream 1 30 =
      some (List.replicate 30 ⟨-45, 2, -45, 4⟩) ∧
    (List.replicate 30 (⟨-45, 2, -45, 4⟩ : Obstacle)).length = 30 := by
  have h : createObstacles constOneStream 1 30 =
      some (List.replicate 30 ⟨-45, 2, -45, 4⟩) := by
    with_unfolding_all decide
  refine ⟨h, ?_⟩
  exact (createObstacles_spec constOneStream 1 _
    (fun n => ⟨zero_le_one, le_refl 1⟩) h).1

end CizzleCarWorld
